import Mathlib

/-!  Verification development for the KVM hypervisor lifecycle controller
     of lib/hypervisor/hv_kvm.py: a shallow embedding of the runtime
     builder, the runtime store, the lifecycle operations, the monitor
     client and the migration poll loop, with the specified properties
     proved or refuted against the embedded code.

     Strings are embedded as lists of characters.  Helper code that the
     controller calls but that lives outside this file's source (the
     utils / constants / serializer / objects modules) is modelled from
     the specification, and each such definition says so in its doc
     comment. -/

namespace HvKvm

/-- Characters of a string literal; the string type of the embedding is
    a list of characters (tokens, paths and messages alike). -/
def str (s : String) : List Char := s.data

/-- Network interface object (objects.NIC, outside src):
    a MAC address, an IP and a bridge name. -/
structure NIC where
  mac : List Char
  ip : List Char
  bridge : List Char
deriving DecidableEq

/-- Structural ("dict") form of a NIC, the shape produced by
    NIC.ToDict and consumed by NIC.FromDict. -/
structure NicDict where
  mac : List Char
  ip : List Char
  bridge : List Char
deriving DecidableEq

/-- Modelled from the spec: objects.NIC.ToDict (outside src) reduces a
    NIC to its plain structural form. -/
def NIC.ToDict (n : NIC) : NicDict :=
  ⟨n.mac, n.ip, n.bridge⟩

/-- Modelled from the spec: objects.NIC.FromDict (outside src)
    reconstructs a NIC object from its structural form. -/
def NIC.FromDict (d : NicDict) : NIC :=
  ⟨d.mac, d.ip, d.bridge⟩

/-- Instance description: name, backend parameters (memory, vcpus),
    hypervisor parameters (acpi, kernel path, initrd path) and the
    ordered NIC list. -/
structure Instance where
  name : List Char
  memory : List Char
  vcpus : List Char
  acpi : Bool
  kernelPath : List Char
  initrdPath : List Char
  nics : List NIC
deriving DecidableEq

/-- A block device as supplied to the runtime builder: the
    configuration object (opaque, unused by the source) and the host
    device path. -/
structure BlockDev where
  dev : List Char
  path : List Char
deriving DecidableEq

/-- Modelled from the spec: constants.RUN_GANETI_DIR (outside src), the
    fixed run-state root. -/
def RUN_GANETI_DIR : List Char := str "/var/run/ganeti"

/-- Root directory of the KVM hypervisor state. -/
def _ROOT_DIR : List Char := RUN_GANETI_DIR ++ str "/kvm-hypervisor"

/-- Directory of the live instance PID files. -/
def _PIDS_DIR : List Char := _ROOT_DIR ++ str "/pid"

/-- Directory of the instance control sockets. -/
def _CTRL_DIR : List Char := _ROOT_DIR ++ str "/ctrl"

/-- Directory of the instance startup data. -/
def _CONF_DIR : List Char := _ROOT_DIR ++ str "/conf"

/-- Modelled from the spec: constants.KVM_PATH (outside src), the fixed
    VM-emulator binary path. -/
def KVM_PATH : List Char := str "/usr/bin/kvm"

/-- Modelled from the spec: constants.SOCAT_PATH (outside src), the
    socket-relay helper binary path. -/
def SOCAT_PATH : List Char := str "/usr/bin/socat"

/-- PID file path of an instance (as built inside _InstancePidAlive). -/
def pidfileOf (instance_name : List Char) : List Char :=
  _PIDS_DIR ++ str "/" ++ instance_name

/-- Monitor socket name of an instance (_InstanceMonitor). -/
def _InstanceMonitor (instance_name : List Char) : List Char :=
  _CTRL_DIR ++ str "/" ++ instance_name ++ str ".monitor"

/-- Serial socket name of an instance (_InstanceSerial). -/
def _InstanceSerial (instance_name : List Char) : List Char :=
  _CTRL_DIR ++ str "/" ++ instance_name ++ str ".serial"

/-- KVM runtime file name of an instance (_InstanceKVMRuntime). -/
def _InstanceKVMRuntime (instance_name : List Char) : List Char :=
  _CONF_DIR ++ str "/" ++ instance_name ++ str ".runtime"

/-! ## Runtime store (serializer)

The serializer module is outside src; the spec only requires the
snapshot format to be an opaque, lossless, blob-transmissible encoding
of the pair (command-token sequence, NIC structural forms).  We model
the blob as a token stream. -/

/-- Modelled from the spec: one element of the opaque serialized blob
    (serializer, outside src). -/
inductive SerTok where
  | nat (n : Nat)
  | chr (c : Char)
deriving DecidableEq

/-- Encoding of one string into the blob: its length, then its
    characters. -/
def encodeStrTok (s : List Char) : List SerTok :=
  SerTok.nat s.length :: s.map SerTok.chr

/-- Decoding of a fixed number of characters from the blob. -/
def decodeCharsTok : Nat → List SerTok → Option (List Char × List SerTok)
  | 0, rest => some ([], rest)
  | n + 1, SerTok.chr c :: rest =>
      (decodeCharsTok n rest).map (fun p => (c :: p.1, p.2))
  | _ + 1, _ => none

/-- Decoding of one string from the blob. -/
def decodeStrTok : List SerTok → Option (List Char × List SerTok)
  | SerTok.nat n :: rest => decodeCharsTok n rest
  | _ => none

/-- Encoding of a list: its length, then the encoded elements. -/
def encodeListTok {α : Type} (enc : α → List SerTok) (l : List α) : List SerTok :=
  SerTok.nat l.length :: (l.map enc).flatten

/-- Decoding of a fixed number of elements from the blob. -/
def decodeManyTok {α : Type} (dec : List SerTok → Option (α × List SerTok)) :
    Nat → List SerTok → Option (List α × List SerTok)
  | 0, rest => some ([], rest)
  | n + 1, rest =>
      match dec rest with
      | none => none
      | some (a, r1) =>
          match decodeManyTok dec n r1 with
          | none => none
          | some (as_, r2) => some (a :: as_, r2)

/-- Decoding of a list from the blob. -/
def decodeListTok {α : Type} (dec : List SerTok → Option (α × List SerTok)) :
    List SerTok → Option (List α × List SerTok)
  | SerTok.nat n :: rest => decodeManyTok dec n rest
  | _ => none

/-- Encoding of a NIC structural form: its three strings in order. -/
def encodeNicDict (d : NicDict) : List SerTok :=
  encodeStrTok d.mac ++ encodeStrTok d.ip ++ encodeStrTok d.bridge

/-- Decoding of a NIC structural form. -/
def decodeNicDict (b : List SerTok) : Option (NicDict × List SerTok) :=
  match decodeStrTok b with
  | none => none
  | some (m, r1) =>
      match decodeStrTok r1 with
      | none => none
      | some (i, r2) =>
          match decodeStrTok r2 with
          | none => none
          | some (br, r3) => some (⟨m, i, br⟩, r3)

/-- Modelled from the spec: serializer.Dump (outside src) on the pair
    (command-token sequence, NIC structural forms): an opaque lossless
    encoding into a blob. -/
def serializerDump (p : List (List Char) × List NicDict) : List SerTok :=
  encodeListTok encodeStrTok p.1 ++ encodeListTok encodeNicDict p.2

/-- Modelled from the spec: serializer.Load (outside src), the inverse
    of serializerDump; trailing garbage is a parse failure. -/
def serializerLoad (b : List SerTok) : Option (List (List Char) × List NicDict) :=
  match decodeListTok decodeStrTok b with
  | none => none
  | some (cmd, r1) =>
      match decodeListTok decodeNicDict r1 with
      | none => none
      | some (nics, r2) => if r2 = [] then some (cmd, nics) else none

/-- Save an instance's KVM runtime (_SaveKVMRuntime, serialization
    part): NICs are reduced to their structural forms and the pair is
    dumped to the blob that _WriteKVMRuntime then writes. -/
def _SaveKVMRuntime (kvm_runtime : List (List Char) × List NIC) : List SerTok :=
  serializerDump (kvm_runtime.1, kvm_runtime.2.map NIC.ToDict)

/-- Load an instance's KVM runtime (_LoadKVMRuntime, deserialization
    part): the blob is parsed and the NIC objects are rebuilt from
    their structural forms. -/
def _LoadKVMRuntime (b : List SerTok) : Option (List (List Char) × List NIC) :=
  match serializerLoad b with
  | none => none
  | some p => some (p.1, p.2.map NIC.FromDict)

theorem decodeCharsTok_encode (s : List Char) (rest : List SerTok) :
    decodeCharsTok s.length (s.map SerTok.chr ++ rest) = some (s, rest) := by
  induction s with
  | nil => rfl
  | cons c cs ih => simp [decodeCharsTok, ih]

theorem decodeStrTok_encode (s : List Char) (rest : List SerTok) :
    decodeStrTok (encodeStrTok s ++ rest) = some (s, rest) := by
  simp [decodeStrTok, encodeStrTok, decodeCharsTok_encode]

theorem decodeManyTok_encode {α : Type} (enc : α → List SerTok)
    (dec : List SerTok → Option (α × List SerTok))
    (h : ∀ a r, dec (enc a ++ r) = some (a, r))
    (l : List α) (rest : List SerTok) :
    decodeManyTok dec l.length ((l.map enc).flatten ++ rest) = some (l, rest) := by
  induction l with
  | nil => rfl
  | cons a as ih =>
      simp only [List.map_cons, List.flatten, List.length_cons, List.append_assoc]
      simp [decodeManyTok, h, ih]

theorem decodeListTok_encode {α : Type} (enc : α → List SerTok)
    (dec : List SerTok → Option (α × List SerTok))
    (h : ∀ a r, dec (enc a ++ r) = some (a, r))
    (l : List α) (rest : List SerTok) :
    decodeListTok dec (encodeListTok enc l ++ rest) = some (l, rest) := by
  simp [decodeListTok, encodeListTok, decodeManyTok_encode enc dec h]

theorem decodeNicDict_encode (d : NicDict) (r : List SerTok) :
    decodeNicDict (encodeNicDict d ++ r) = some (d, r) := by
  simp [decodeNicDict, encodeNicDict, List.append_assoc, decodeStrTok_encode]

theorem serializerLoad_dump (p : List (List Char) × List NicDict) :
    serializerLoad (serializerDump p) = some p := by
  have h1 := decodeListTok_encode encodeStrTok decodeStrTok decodeStrTok_encode p.1
    (encodeListTok encodeNicDict p.2)
  have h2 := decodeListTok_encode encodeNicDict decodeNicDict decodeNicDict_encode p.2 []
  simp only [List.append_nil] at h2
  simp [serializerLoad, serializerDump, h1, h2]

theorem load_save_runtime (rt : List (List Char) × List NIC) :
    _LoadKVMRuntime (_SaveKVMRuntime rt) = some rt := by
  have h : ∀ n : NIC, NIC.FromDict (NIC.ToDict n) = n := fun n => rfl
  simp [_LoadKVMRuntime, _SaveKVMRuntime, serializerLoad_dump,
        List.map_map, Function.comp_def, h]

/-! ## Runtime builder (_GenerateKVMRuntime) -/

/-- Drive value token of one block device, exactly as the source
    formats it: 'file=%s,format=raw%s%s' with if_val = ',if=virtio' and
    boot_val = ',boot=on' on the boot drive, empty otherwise. -/
def mkDriveVal (dev_path : List Char) (boot : Bool) : List Char :=
  str "file=" ++ dev_path ++ str ",format=raw" ++ str ",if=virtio" ++
    (if boot then str ",boot=on" else [])

/-- Drive flag/value tokens of the block-device list; the boolean is
    the boot_drive flag, true for the first device only. -/
def driveTokens : Bool → List BlockDev → List (List Char)
  | _, [] => []
  | boot_drive, d :: rest =>
      str "-drive" :: mkDriveVal d.path boot_drive :: driveTokens false rest

/-- Generate the KVM invocation for an instance (_GenerateKVMRuntime):
    the ordered command-token sequence and the instance's NIC list.
    NIC expansion is deferred to launch time. -/
def _GenerateKVMRuntime (inst : Instance) (block_devices : List BlockDev) :
    List (List Char) × List NIC :=
  let pidfile := pidfileOf inst.name
  let kvm_cmd :=
    [KVM_PATH] ++
    [str "-m", inst.memory] ++
    [str "-smp", inst.vcpus] ++
    [str "-pidfile", pidfile] ++
    [str "-name", inst.name] ++
    [str "-daemonize"] ++
    (if inst.acpi then [] else [str "-no-acpi"]) ++
    driveTokens true block_devices ++
    [str "-kernel", inst.kernelPath] ++
    (if inst.initrdPath ≠ [] then [str "-initrd", inst.initrdPath] else []) ++
    [str "-append", str "console=ttyS0,38400 root=/dev/vda"] ++
    [str "-nographic"] ++
    [str "-monitor", str "unix:" ++ _InstanceMonitor inst.name ++ str ",server,nowait"] ++
    [str "-serial", str "unix:" ++ _InstanceSerial inst.name ++ str ",server,nowait"]
  (kvm_cmd, inst.nics)

/-- Values of the '-drive' flags of a token sequence, in order: after a
    '-drive' token the next token is collected as a drive value. -/
def drivesOf : List (List Char) → List (List Char)
  | [] => []
  | t :: rest =>
      if t = str "-drive" then
        match rest with
        | [] => []
        | v :: rest2 => v :: drivesOf rest2
      else drivesOf rest

/-- A token carries the boot flag when it ends in ',boot=on'. -/
def hasBootFlag (v : List Char) : Bool :=
  decide (str ",boot=on" <:+ v)

theorem getLast?_of_suffix {s l : List Char} (h : s <:+ l) (hs : s ≠ []) :
    l.getLast? = s.getLast? := by
  obtain ⟨t, rfl⟩ := h
  exact List.getLast?_append_of_ne_nil t hs

theorem hasBootFlag_mkDriveVal (p : List Char) (b : Bool) :
    hasBootFlag (mkDriveVal p b) = b := by
  cases b with
  | true =>
      have hval : mkDriveVal p true =
          (str "file=" ++ p ++ str ",format=raw" ++ str ",if=virtio") ++ str ",boot=on" := by
        simp [mkDriveVal]
      rw [hasBootFlag, hval]
      exact decide_eq_true ⟨_, rfl⟩
  | false =>
      have hval : mkDriveVal p false =
          str "file=" ++ p ++ str ",format=raw" ++ str ",if=virtio" := by
        simp [mkDriveVal]
      rw [hasBootFlag, hval]
      apply decide_eq_false
      intro h
      have h1 : (str "file=" ++ p ++ str ",format=raw" ++ str ",if=virtio").getLast?
          = (str ",if=virtio").getLast? :=
        List.getLast?_append_of_ne_nil (str "file=" ++ p ++ str ",format=raw") (by decide)
      have h2 := getLast?_of_suffix h (by decide)
      rw [h1] at h2
      exact absurd h2 (by decide)

theorem hasBootFlag_drive_flag : hasBootFlag (str "-drive") = false := by
  decide

theorem drivesOf_driveTokens (b : Bool) (bds : List BlockDev) :
    drivesOf (driveTokens b bds) =
      match bds with
      | [] => []
      | d :: rest => mkDriveVal d.path b :: rest.map (fun e => mkDriveVal e.path false) := by
  induction bds generalizing b with
  | nil => rfl
  | cons d rest ih =>
      have hne : mkDriveVal d.path b ≠ str "-drive" := by
        cases b <;> simp [mkDriveVal, str]
      simp only [driveTokens, drivesOf, if_pos rfl]
      rw [ih false]
      cases rest <;> simp

theorem countP_driveTokens_false (l : List BlockDev) :
    (driveTokens false l).countP hasBootFlag = 0 := by
  induction l with
  | nil => rfl
  | cons d rest ih =>
      simp [driveTokens, List.countP_cons, hasBootFlag_drive_flag,
        hasBootFlag_mkDriveVal, ih]

theorem countP_driveTokens_true (d : BlockDev) (rest : List BlockDev) :
    (driveTokens true (d :: rest)).countP hasBootFlag = 1 := by
  simp [driveTokens, List.countP_cons, hasBootFlag_drive_flag,
    hasBootFlag_mkDriveVal, countP_driveTokens_false rest]

/-! ## Python-level error model and percent formatting

The source builds every error message with the percent operator; two of
its format expressions are malformed, so the formatting step itself is
embedded: a '%s' consumes the next argument, a missing argument raises
TypeError, and an unconverted leftover argument raises TypeError, as in
Python.  Looking up a name that is not bound in the enclosing function
raises NameError before any formatting happens. -/

/-- Errors the embedded code can raise: the hypervisor's own error
    class, plus the two interpreter-level errors reachable through the
    malformed message expressions. -/
inductive PyError where
  | hypervisorError (msg : List Char)
  | nameError (ident : List Char)
  | typeError (msg : List Char)
deriving DecidableEq

/-- Percent formatting: walk the format string, each '%s' consuming one
    argument; argument-count mismatches raise TypeError as in Python.
    The only conversion the source uses is '%s'; any other character
    after '%' would be a formatting error (never reached here). -/
def formatPct : List Char → List (List Char) → Except PyError (List Char)
  | [], [] => Except.ok []
  | [], _ :: _ =>
      Except.error (PyError.typeError
        (str "not all arguments converted during string formatting"))
  | c :: rest, args =>
      if c = '%' then
        match rest, args with
        | 's' :: rest2, a :: args2 => (formatPct rest2 args2).map (fun r => a ++ r)
        | 's' :: _, [] =>
            Except.error (PyError.typeError
              (str "not enough arguments for format string"))
        | _, _ =>
            Except.error (PyError.typeError (str "unsupported format character"))
      else (formatPct rest args).map (fun r => c :: r)

/-- Raise a HypervisorError with a percent-formatted message; when the
    formatting itself raises, that error propagates instead. -/
def hvRaise (fmt : List Char) (args : List (List Char)) : PyError :=
  match formatPct fmt args with
  | Except.ok m => PyError.hypervisorError m
  | Except.error e => e

/-- Resolution of a bare name against the local names of the enclosing
    function: an unbound name raises NameError. -/
def resolveName (locals_ : List (List Char)) (v : List Char) : Except PyError Unit :=
  if v ∈ locals_ then Except.ok () else Except.error (PyError.nameError v)

/-! ## Filesystem / process state and external-world oracles -/

/-- Captured result of running an external command (utils.RunCmd,
    outside src): failure flag, captured streams, combined output and
    failure reason. -/
structure CmdResult where
  failed : Bool
  stdout : List Char
  stderr : List Char
  output : List Char
  fail_reason : List Char
deriving DecidableEq

/-- On-disk and process state of the instance under consideration: the
    PID file content (none when the file is absent), the two control
    sockets, the runtime snapshot content, the generated temporary tap
    scripts (name and content) with the temp-name counter, and the OS
    process table. -/
structure FsState where
  pidfile : Option Nat
  monitorSock : Bool
  serialSock : Bool
  runtimeFile : Option (List SerTok)
  tmpFiles : List (List Char × List Char)
  tmpCounter : Nat
  procs : Nat → Bool

/-- Observable side effects of a lifecycle call. -/
inductive Event where
  | killSignal (pid : Nat)
  | monitorCmd (c : List Char)
  | slept (q : ℚ)
  | spawned (cmd : List (List Char))
deriving DecidableEq

/-- Oracles for behavior outside this component: what external commands
    return, how launching a command changes the world, which names the
    OS picks for temp files, and what the kill signal / graceful
    powerdown loop do to the world.  Modelled from the spec: these are
    the utils helpers (outside src) and the OS itself. -/
structure Env where
  runCmdResult : List (List Char) → CmdResult
  runShellResult : List Char → CmdResult
  runEffect : FsState → List (List Char) → FsState
  tmpName : Nat → List Char
  killEffect : FsState → Nat → FsState
  powerdownEffect : FsState → Nat → FsState × List (List Char)

/-- Modelled from the spec: utils.ReadPidFile (outside src) — a missing
    or unreadable PID file reads as PID 0. -/
def ReadPidFile (content : Option Nat) : Nat :=
  content.getD 0

/-- Modelled from the spec: utils.IsProcessAlive (outside src) — PID 0
    (no PID file) is never alive, otherwise the OS process table
    decides. -/
def IsProcessAlive (st : FsState) (pid : Nat) : Bool :=
  if pid = 0 then false else st.procs pid

/-- Instance PID bookkeeping (_InstancePidAlive): the PID file path,
    the PID read from it and its liveness. -/
def _InstancePidAlive (st : FsState) (instance_name : List Char) :
    List Char × Nat × Bool :=
  (pidfileOf instance_name, ReadPidFile st.pidfile,
    IsProcessAlive st (ReadPidFile st.pidfile))

/-! ## Network script generation and the process launcher -/

/-- Tap script text written by _WriteNetScript, exactly the text the
    source assembles. -/
def netScriptContent (inst : Instance) (nic : NIC) : List Char :=
  str "#!/bin/sh\n" ++
  str "# this is autogenerated by Ganeti, please do not edit\n#\n" ++
  str "export INSTANCE=" ++ inst.name ++ str "\n" ++
  str "export MAC=" ++ nic.mac ++ str "\n" ++
  str "export IP=" ++ nic.ip ++ str "\n" ++
  str "export BRIDGE=" ++ nic.bridge ++ str "\n" ++
  str "export INTERFACE=$1\n" ++
  str "if [ -x /etc/ganeti/kvm-vif-bridge ]; then\n" ++
  str "  # Execute the user-specific vif file\n" ++
  str "  /etc/ganeti/kvm-vif-bridge\n" ++
  str "else\n" ++
  str "  # Connect the interface to the bridge\n" ++
  str "  /sbin/ifconfig $INTERFACE 0.0.0.0 up\n" ++
  str "  /usr/sbin/brctl addif $BRIDGE $INTERFACE\n" ++
  str "fi\n\n"

/-- Write one tap script (_WriteNetScript): the OS picks the temp file
    name (tempfile.mkstemp, via the oracle); returns the name and the
    state with the script on disk.  The seq parameter is accepted and
    unused, as in the source. -/
def _WriteNetScript (env : Env) (st : FsState) (inst : Instance)
    (seq : Nat) (nic : NIC) : List Char × FsState :=
  let tmpfile_name := env.tmpName st.tmpCounter
  (tmpfile_name,
    { st with
        tmpFiles := st.tmpFiles ++ [(tmpfile_name, netScriptContent inst nic)],
        tmpCounter := st.tmpCounter + 1 })

/-- Per-NIC expansion performed inside _ExecuteKVMRuntime: for each NIC
    a device token pair and a tap token pair referencing a freshly
    written script; returns the tokens, the state after the script
    writes, and the script names recorded for post-launch cleanup. -/
def nicTokens (env : Env) (inst : Instance) :
    List NIC → Nat → FsState → List (List Char) × FsState × List (List Char)
  | [], _, st => ([], st, [])
  | nic :: rest, nic_seq, st =>
      let ws := _WriteNetScript env st inst nic_seq nic
      let tl := nicTokens env inst rest (nic_seq + 1) ws.2
      ([str "-net", str "nic,macaddr=" ++ nic.mac ++ str ",model=virtio",
        str "-net", str "tap,script=" ++ ws.1] ++ tl.1,
       tl.2.1, ws.1 :: tl.2.2)

/-- NIC part of the launch: a no-network token pair when the NIC list
    is empty, the per-NIC expansion otherwise. -/
def execNicPart (env : Env) (st : FsState) (inst : Instance) (kvm_nics : List NIC) :
    List (List Char) × FsState × List (List Char) :=
  match kvm_nics with
  | [] => ([str "-net", str "none"], st, [])
  | _ :: _ => nicTokens env inst kvm_nics 0 st

/-- Migration-listen tokens added when an incoming endpoint is set. -/
def incomingToks : Option (List Char × List Char) → List (List Char)
  | none => []
  | some tp => [str "-incoming", str "tcp:" ++ tp.1 ++ str ":" ++ tp.2]

/-- Full command line _ExecuteKVMRuntime hands to utils.RunCmd. -/
def execFullCmd (env : Env) (st : FsState) (inst : Instance)
    (kvm_runtime : List (List Char) × List NIC)
    (incoming : Option (List Char × List Char)) : List (List Char) :=
  kvm_runtime.1 ++ (execNicPart env st inst kvm_runtime.2).1 ++ incomingToks incoming

/-- State after the launch command ran: tap scripts written, then the
    world updated by the launched process (oracle). -/
def execStateAfterRun (env : Env) (st : FsState) (inst : Instance)
    (kvm_runtime : List (List Char) × List NIC)
    (incoming : Option (List Char × List Char)) : FsState :=
  env.runEffect (execNicPart env st inst kvm_runtime.2).2.1
    (execFullCmd env st inst kvm_runtime incoming)

/-- Delete the named temp files (utils.RemoveFile on each). -/
def removeTmps (names : List (List Char)) (st : FsState) : FsState :=
  { st with tmpFiles := st.tmpFiles.filter (fun p => !(names.contains p.1)) }

/-- Outcome of a lifecycle call: the raised error if any, the state at
    return or raise time, and the observable events. -/
structure PyRes where
  err : Option PyError
  st : FsState
  events : List Event

/-- Execute a KVM command (_ExecuteKVMRuntime): refuse when already
    alive; expand NICs; append the incoming endpoint; run the command;
    a failed run raises with the captured output; a zero exit whose
    PID-file re-check finds no live process raises through the
    two-slot/one-argument format expression of the source (which is a
    TypeError, see the C8 analysis); on success the tap scripts are
    deleted. -/
def _ExecuteKVMRuntime (env : Env) (st : FsState) (inst : Instance)
    (kvm_runtime : List (List Char) × List NIC)
    (incoming : Option (List Char × List Char)) : PyRes :=
  if IsProcessAlive st (ReadPidFile st.pidfile) then
    ⟨some (hvRaise (str "Failed to start instance %s: %s")
        [inst.name, str "already running"]), st, []⟩
  else
    let np := execNicPart env st inst kvm_runtime.2
    let kvm_cmd := execFullCmd env st inst kvm_runtime incoming
    let result := env.runCmdResult kvm_cmd
    let st2 := execStateAfterRun env st inst kvm_runtime incoming
    if result.failed then
      ⟨some (hvRaise (str "Failed to start instance %s: %s (%s)")
          [inst.name, result.fail_reason, result.output]),
       st2, [Event.spawned kvm_cmd]⟩
    else if IsProcessAlive st2 (ReadPidFile st2.pidfile) = false then
      ⟨some (hvRaise (str "Failed to start instance %s: %s") [inst.name]),
       st2, [Event.spawned kvm_cmd]⟩
    else
      ⟨none, removeTmps np.2.2 st2, [Event.spawned kvm_cmd]⟩

/-- Write an instance's KVM runtime blob (_WriteKVMRuntime). -/
def _WriteKVMRuntime (st : FsState) (data : List SerTok) : FsState :=
  { st with runtimeFile := some data }

/-- Start an instance (StartInstance): refuse when already alive,
    otherwise build, save and execute the runtime. -/
def StartInstance (env : Env) (st : FsState) (inst : Instance)
    (block_devices : List BlockDev) : PyRes :=
  if IsProcessAlive st (ReadPidFile st.pidfile) then
    ⟨some (hvRaise (str "Failed to start instance %s: %s")
        [inst.name, str "already running"]), st, []⟩
  else
    let kvm_runtime := _GenerateKVMRuntime inst block_devices
    let st1 := _WriteKVMRuntime st (_SaveKVMRuntime kvm_runtime)
    _ExecuteKVMRuntime env st1 inst kvm_runtime none

/-! ## Monitor client -/

/-- Modelled from the spec: utils.ShellQuote (outside src); quoting is
    opaque to the verified properties, embedded as the identity. -/
def ShellQuote (s : List Char) : List Char := s

/-- Shell pipeline handed to the relay helper by _CallMonitorCommand. -/
def socatLine (instance_name command : List Char) : List Char :=
  str "echo " ++ ShellQuote command ++ str " | " ++ SOCAT_PATH ++
    str " STDIO UNIX-CONNECT:" ++ ShellQuote (_InstanceMonitor instance_name)

/-- Single-quote character, written by code point. -/
def sq : List Char := [Char.ofNat 39]

/-- Format string of _CallMonitorCommand's failure message: five '%s'
    slots, while the source supplies a four-element tuple. -/
def monitorFailFmt : List Char :=
  str "Failed to send command " ++ sq ++ str "%s" ++ sq ++
    str " to instance %s. output: %s, error: %s, fail_reason: %s"

/-- Local names bound in _CallMonitorCommand (the parameter is
    instance_name; no local is named instance). -/
def monitorLocals : List (List Char) :=
  [str "self", str "instance_name", str "command", str "socat", str "result"]

/-- Invoke a monitor command (_CallMonitorCommand).  On relay failure
    the source evaluates the message tuple whose first element is
    instance.name: the name instance is unbound there, so Python raises
    NameError before formatting (and the format string has five slots
    against four tuple elements anyway).  The empty string stands in
    for the never-computed attribute value. -/
def _CallMonitorCommand (env : Env) (instance_name command : List Char) :
    Except PyError CmdResult :=
  let result := env.runShellResult (socatLine instance_name command)
  if result.failed then
    match resolveName monitorLocals (str "instance") with
    | Except.error e => Except.error e
    | Except.ok _ =>
        match formatPct monitorFailFmt
            [[], result.stdout, result.stderr, result.fail_reason] with
        | Except.ok m => Except.error (PyError.hypervisorError m)
        | Except.error e => Except.error e
  else Except.ok result

/-! ## Stop -/

/-- Cleanup performed once the instance is confirmed dead: delete the
    PID file, both control sockets and the runtime snapshot. -/
def cleanupFiles (st : FsState) : FsState :=
  { st with pidfile := none, monitorSock := false,
            serialSock := false, runtimeFile := none }

/-- Kill-or-powerdown step of StopInstance: performed only when a
    positive PID is alive; forced stops and ACPI-disabled instances get
    the kill signal, others the graceful powerdown loop (via the
    oracle, whose timing behavior is verified separately as
    powerdownLoop). -/
def stopStep (env : Env) (st : FsState) (inst : Instance) (force : Bool) :
    FsState × List Event :=
  let pid := ReadPidFile st.pidfile
  if 0 < pid ∧ IsProcessAlive st pid = true then
    if force ∨ inst.acpi = false then
      (env.killEffect st pid, [Event.killSignal pid])
    else
      let pd := env.powerdownEffect st pid
      (pd.1, pd.2.map Event.monitorCmd)
  else (st, [])

/-- Stop an instance (StopInstance): run the kill-or-powerdown step,
    re-check liveness and either clean up the four artifacts and return
    true, or return false so the caller may escalate. -/
def StopInstance (env : Env) (st : FsState) (inst : Instance) (force : Bool) :
    Bool × FsState × List Event :=
  let pid := ReadPidFile st.pidfile
  let step := stopStep env st inst force
  if IsProcessAlive step.1 pid = false then
    (true, cleanupFiles step.1, step.2)
  else (false, step.1, step.2)

/-! ## Migration status parsing and the poll loop

The source matches replies against re.compile of a Migration-status
pattern with one word capture, flags re.M and re.I.  The pattern is a
literal, one-or-more whitespace, a second literal, one-or-more
whitespace and a greedy word-character capture; since whitespace, the
literal heads and word characters are disjoint, maximal munch is exact
and backtracking never changes the outcome.  re.M only alters anchors,
which the pattern does not use; re.I folds letter case of the literals
while the capture keeps the original characters. -/

/-- Word character of the pattern (Python 2 bytes pattern, no re.U):
    ASCII letters, digits and the underscore. -/
def isWordChar (c : Char) : Bool :=
  c.isAlpha || c.isDigit || c == '_'

/-- Whitespace characters recognized by the pattern. -/
def isSpaceChar (c : Char) : Bool :=
  c == ' ' || c == '\t' || c == '\n' || c == '\r' || c == '\x0b' || c == '\x0c'

/-- ASCII lower-casing used for the case-insensitive literal match. -/
def lowerChar (c : Char) : Char :=
  if 'A' ≤ c ∧ c ≤ 'Z' then Char.ofNat (c.toNat + 32) else c

/-- Case-insensitive literal match: on success returns the rest of the
    input. -/
def ciMatch : List Char → List Char → Option (List Char)
  | [], s => some s
  | _ :: _, [] => none
  | p :: ps, c :: cs => if lowerChar c = lowerChar p then ciMatch ps cs else none

/-- Head of the input is a whitespace character. -/
def headIsSpace : List Char → Bool
  | [] => false
  | c :: _ => isSpaceChar c

/-- Match the whole pattern at the start of the input, returning the
    captured word. -/
def matchMigStatusAt (s : List Char) : Option (List Char) :=
  match ciMatch (str "migration") s with
  | none => none
  | some s1 =>
      if headIsSpace s1 then
        match ciMatch (str "status:") (s1.dropWhile isSpaceChar) with
        | none => none
        | some s3 =>
            if headIsSpace s3 then
              let tok := (s3.dropWhile isSpaceChar).takeWhile isWordChar
              if tok.isEmpty then none else some tok
            else none
      else none

/-- Search for the pattern at every position, leftmost match first
    (re.search). -/
def migStatusSearch : List Char → Option (List Char)
  | [] => none
  | c :: t =>
      match matchMigStatusAt (c :: t) with
      | some tok => some tok
      | none => migStatusSearch t

/-- Monitor command sent by every poll round. -/
def infoMigrateCmd : List Char := str "info migrate"

/-- Format string of the unparsable-reply error. -/
def unknownFmt : List Char :=
  str "Unknown " ++ sq ++ str "info migrate" ++ sq ++ str " result: %s"

/-- How a run of the poll loop ends. -/
inductive PollOutcome where
  | completed
  | fatal (e : PyError)
  | exhausted
deriving DecidableEq

/-- Status poll loop of MigrateInstance, consuming the stdout of one
    successful relay invocation of info migrate per round: completed
    ends the loop; active sleeps 2 and retries; failed or cancelled
    first resumes a non-live guest with cont and then raises; an
    unparsable reply raises at once; any other token logs, sleeps 2 and
    retries.  The supplied list holds the successive replies; a list
    that runs out while the loop would continue ends in exhausted. -/
def pollLoop (live : Bool) : List (List Char) → List Event × PollOutcome
  | [] => ([], PollOutcome.exhausted)
  | reply :: rest =>
      match migStatusSearch reply with
      | none =>
          ([Event.monitorCmd infoMigrateCmd],
           PollOutcome.fatal (hvRaise unknownFmt [reply]))
      | some status =>
          if status = str "completed" then
            ([Event.monitorCmd infoMigrateCmd], PollOutcome.completed)
          else if status = str "active" then
            let k := pollLoop live rest
            (Event.monitorCmd infoMigrateCmd :: Event.slept 2 :: k.1, k.2)
          else if status = str "failed" ∨ status = str "cancelled" then
            (Event.monitorCmd infoMigrateCmd ::
               (if live then [] else [Event.monitorCmd (str "cont")]),
             PollOutcome.fatal (hvRaise (str "Migration %s at the kvm level") [status]))
          else
            let k := pollLoop live rest
            (Event.monitorCmd infoMigrateCmd :: Event.slept 2 :: k.1, k.2)

/-! ## Graceful powerdown retry loop -/

/-- Next inter-attempt delay of _RetryInstancePowerdown: multiplied by
    1.3 while below the cap of 5, unchanged once at or above it. -/
def nextWait (wait : ℚ) : ℚ :=
  if wait < 5 then wait * (13 / 10) else wait

/-- Fuel-indexed embedding of the while loop of
    _RetryInstancePowerdown: while the clock is before the deadline and
    the guest is alive (it dies at time tdie), send system_powerdown,
    sleep the current delay, grow the delay; none means the fuel ran
    out with the loop still running, some gives the events and the
    clock value at loop exit. -/
def powerdownLoop (tdie deadline : ℚ) (fuel : Nat) (now wait : ℚ) :
    Option (List Event × ℚ) :=
  if now < deadline ∧ now < tdie then
    match fuel with
    | 0 => none
    | f + 1 =>
        match powerdownLoop tdie deadline f (now + wait) (nextWait wait) with
        | none => none
        | some p =>
            some (Event.monitorCmd (str "system_powerdown") ::
                    Event.slept wait :: p.1, p.2)
  else some ([], now)

/-- Wait for an instance to power down (_RetryInstancePowerdown):
    deadline is the entry clock plus the timeout (default 30), the
    delay starts at 1; the ceiling of the timeout bounds the number of
    rounds, which the termination theorem shows is fuel enough. -/
def _RetryInstancePowerdown (tdie now : ℚ) (timeout : ℚ) : Option (List Event × ℚ) :=
  powerdownLoop tdie (now + timeout) (Int.toNat ⌈timeout⌉) now 1

/-! ## Formatting lemmas -/

theorem formatPct_cons (c : Char) (rest : List Char) (args : List (List Char)) :
    formatPct (c :: rest) args =
      if c = '%' then
        match rest, args with
        | 's' :: rest2, a :: args2 => (formatPct rest2 args2).map (fun r => a ++ r)
        | 's' :: _, [] =>
            Except.error (PyError.typeError
              (str "not enough arguments for format string"))
        | _, _ => Except.error (PyError.typeError (str "unsupported format character"))
      else (formatPct rest args).map (fun r => c :: r) := by
  rw [formatPct.eq_def]

theorem formatPct_s (rest : List Char) (a : List Char) (args : List (List Char)) :
    formatPct ('%' :: 's' :: rest) (a :: args) =
      (formatPct rest args).map (fun r => a ++ r) := by
  rfl

theorem formatPct_split (pre : List Char) (hpre : '%' ∉ pre)
    (rest : List Char) (args : List (List Char)) :
    formatPct (pre ++ rest) args = (formatPct rest args).map (fun r => pre ++ r) := by
  induction pre with
  | nil =>
      simp only [List.nil_append]
      cases formatPct rest args <;> rfl
  | cons c cs ih =>
      have hc : c ≠ '%' := fun hq => hpre (hq ▸ List.mem_cons_self c cs)
      have hcs : '%' ∉ cs := fun hq => hpre (List.mem_cons_of_mem c hq)
      rw [List.cons_append]
      rw [formatPct_cons, if_neg hc, ih hcs]
      cases formatPct rest args <;> rfl

theorem formatPct_noargs (p : List Char) (hp : '%' ∉ p) :
    formatPct p [] = Except.ok p := by
  have h := formatPct_split p hp [] []
  simpa [formatPct, Except.map] using h

theorem hvRaise_one_shot (p1 p2 a : List Char) (h1 : '%' ∉ p1) (h2 : '%' ∉ p2) :
    hvRaise (p1 ++ '%' :: 's' :: p2) [a] =
      PyError.hypervisorError (p1 ++ a ++ p2) := by
  rw [hvRaise, formatPct_split p1 h1, formatPct_s, formatPct_noargs p2 h2]
  simp [Except.map, List.append_assoc]

theorem hvRaise_two_shot (p1 p2 p3 a b : List Char)
    (h1 : '%' ∉ p1) (h2 : '%' ∉ p2) (h3 : '%' ∉ p3) :
    hvRaise (p1 ++ '%' :: 's' :: (p2 ++ '%' :: 's' :: p3)) [a, b] =
      PyError.hypervisorError (p1 ++ a ++ p2 ++ b ++ p3) := by
  rw [hvRaise, formatPct_split p1 h1, formatPct_s, formatPct_split p2 h2,
    formatPct_s, formatPct_noargs p3 h3]
  simp [Except.map, List.append_assoc]

theorem hvRaise_two_slots_one_arg (p1 p2 p3 a : List Char)
    (h1 : '%' ∉ p1) (h2 : '%' ∉ p2) :
    hvRaise (p1 ++ '%' :: 's' :: (p2 ++ '%' :: 's' :: p3)) [a] =
      PyError.typeError (str "not enough arguments for format string") := by
  rw [hvRaise, formatPct_split p1 h1, formatPct_s, formatPct_split p2 h2]
  have : formatPct ('%' :: 's' :: p3) [] =
      Except.error (PyError.typeError (str "not enough arguments for format string")) := by
    rw [formatPct]
    simp
  rw [this]
  rfl

theorem hvRaise_already_running (a : List Char) :
    hvRaise (str "Failed to start instance %s: %s") [a, str "already running"] =
      PyError.hypervisorError
        (str "Failed to start instance " ++ a ++ str ": already running") := by
  have hf : str "Failed to start instance %s: %s" =
      str "Failed to start instance " ++ '%' :: 's' :: (str ": " ++ '%' :: 's' :: []) := by
    decide
  rw [hf, hvRaise_two_shot _ _ _ _ _ (by decide) (by decide) (by decide)]
  have : str "Failed to start instance " ++ a ++ str ": " ++ str "already running" ++ [] =
      str "Failed to start instance " ++ a ++ str ": already running" := by
    simp [str, List.append_assoc]
  rw [this]

theorem hvRaise_postlaunch (a : List Char) :
    hvRaise (str "Failed to start instance %s: %s") [a] =
      PyError.typeError (str "not enough arguments for format string") := by
  have hf : str "Failed to start instance %s: %s" =
      str "Failed to start instance " ++ '%' :: 's' :: (str ": " ++ '%' :: 's' :: []) := by
    decide
  rw [hf, hvRaise_two_slots_one_arg _ _ _ _ (by decide) (by decide)]

/-! ## Claim theorems -/

/-- C3: for every Runtime built from an instance description (token
    sequence plus NIC list), loading the saved serialized form
    reproduces it exactly, order preserved. -/
theorem kvm_runtime_roundtrip (inst : Instance) (block_devices : List BlockDev) :
    _LoadKVMRuntime (_SaveKVMRuntime (_GenerateKVMRuntime inst block_devices)) =
      some (_GenerateKVMRuntime inst block_devices) :=
  load_save_runtime _

/-- C5: the Runtime built from N block devices, N at least 1, contains
    the drive flag/value tokens of the supplied devices in order; the
    drive values are the devices in order, each in raw/virtio form, the
    first and only the first carrying the boot flag; and exactly one
    drive token carries the boot flag. -/
theorem generate_drive_boot_invariant (inst : Instance) (bds : List BlockDev)
    (h : bds ≠ []) :
    (∃ pre post, (_GenerateKVMRuntime inst bds).1 = pre ++ driveTokens true bds ++ post) ∧
    drivesOf (driveTokens true bds) =
      mkDriveVal (bds.head h).path true ::
        bds.tail.map (fun e => mkDriveVal e.path false) ∧
    (driveTokens true bds).countP hasBootFlag = 1 ∧
    ∀ v ∈ drivesOf (driveTokens true bds), ∃ p b, v = mkDriveVal p b := by
  obtain ⟨d, rest, rfl⟩ : ∃ d rest, bds = d :: rest := by
    cases bds with
    | nil => exact absurd rfl h
    | cons d r => exact ⟨d, r, rfl⟩
  refine ⟨?_, ?_, countP_driveTokens_true d rest, ?_⟩
  · refine ⟨[KVM_PATH] ++ [str "-m", inst.memory] ++ [str "-smp", inst.vcpus] ++
      [str "-pidfile", pidfileOf inst.name] ++ [str "-name", inst.name] ++
      [str "-daemonize"] ++ (if inst.acpi then [] else [str "-no-acpi"]),
      [str "-kernel", inst.kernelPath] ++
      (if inst.initrdPath ≠ [] then [str "-initrd", inst.initrdPath] else []) ++
      [str "-append", str "console=ttyS0,38400 root=/dev/vda"] ++
      [str "-nographic"] ++
      [str "-monitor", str "unix:" ++ _InstanceMonitor inst.name ++ str ",server,nowait"] ++
      [str "-serial", str "unix:" ++ _InstanceSerial inst.name ++ str ",server,nowait"], ?_⟩
    simp [_GenerateKVMRuntime, List.append_assoc]
  · have hd := drivesOf_driveTokens true (d :: rest)
    simpa using hd
  · intro v hv
    rw [drivesOf_driveTokens] at hv
    rcases List.mem_cons.mp hv with hv1 | hv1
    · exact ⟨d.path, true, hv1⟩
    · obtain ⟨e, _, he⟩ := List.mem_map.mp hv1
      exact ⟨e.path, false, he.symm⟩

/-- Witness for C5 at two concrete block devices. -/
theorem generate_drive_boot_invariant_witness :
    ([(⟨[], str "/dev/a"⟩ : BlockDev), ⟨[], str "/dev/b"⟩] ≠ []) ∧
    drivesOf (driveTokens true [(⟨[], str "/dev/a"⟩ : BlockDev), ⟨[], str "/dev/b"⟩]) =
      [mkDriveVal (str "/dev/a") true, mkDriveVal (str "/dev/b") false] ∧
    (driveTokens true
        [(⟨[], str "/dev/a"⟩ : BlockDev), ⟨[], str "/dev/b"⟩]).countP hasBootFlag = 1 := by
  have h := generate_drive_boot_invariant
    ⟨str "inst1", str "128", str "1", true, str "/boot/vmlinuz", [], []⟩
    [⟨[], str "/dev/a"⟩, ⟨[], str "/dev/b"⟩] (by decide)
  exact ⟨by decide, by simpa using h.2.1, h.2.2.1⟩

/-- C2: whenever StopInstance returns true for an instance, none of
    the four on-disk artifacts — PID file, monitor socket, serial
    socket, runtime snapshot — exist in the state it returns. -/
theorem stop_cleanup_invariant (env : Env) (st : FsState) (inst : Instance)
    (force : Bool) (h : (StopInstance env st inst force).1 = true) :
    (StopInstance env st inst force).2.1.pidfile = none ∧
    (StopInstance env st inst force).2.1.monitorSock = false ∧
    (StopInstance env st inst force).2.1.serialSock = false ∧
    (StopInstance env st inst force).2.1.runtimeFile = none := by
  simp only [StopInstance] at h ⊢
  split at h
  next hc => simp [hc, cleanupFiles]
  next hc => simp at h

/-- C9: Stop on an Absent instance (no PID file, or the recorded PID
    not alive) returns true immediately, cleans the artifacts, and
    sends no monitor command and no kill signal. -/
theorem stop_absent_immediate (env : Env) (st : FsState) (inst : Instance)
    (force : Bool) (h : IsProcessAlive st (ReadPidFile st.pidfile) = false) :
    StopInstance env st inst force = (true, cleanupFiles st, []) := by
  have hstep : stopStep env st inst force = (st, []) := by
    unfold stopStep
    rw [if_neg]
    rintro ⟨h1, h2⟩
    rw [h] at h2
    exact Bool.false_ne_true h2
  simp only [StopInstance, hstep]
  simp [h]

/-- C4: Start on an instance whose PID file holds a live PID raises
    the already-running HypervisorError, with the input state returned
    untouched and no event (no snapshot write, no tap script, no
    spawn). -/
theorem start_already_running_no_mutation (env : Env) (st : FsState)
    (inst : Instance) (block_devices : List BlockDev)
    (h : IsProcessAlive st (ReadPidFile st.pidfile) = true) :
    StartInstance env st inst block_devices =
      ⟨some (PyError.hypervisorError
          (str "Failed to start instance " ++ inst.name ++ str ": already running")),
       st, []⟩ := by
  simp only [StartInstance]
  rw [if_pos h, hvRaise_already_running]

/-- C7 (code bug in the source): on relay failure _CallMonitorCommand
    does not raise the documented HypervisorError carrying
    stdout/stderr/fail_reason — the message tuple references the
    unbound name instance, so a NameError is raised instead. -/
theorem call_monitor_failure_raises_name_error (env : Env)
    (instance_name command : List Char)
    (h : (env.runShellResult (socatLine instance_name command)).failed = true) :
    _CallMonitorCommand env instance_name command =
      Except.error (PyError.nameError (str "instance")) := by
  simp only [_CallMonitorCommand]
  rw [if_pos h]
  have hres : resolveName monitorLocals (str "instance") =
      Except.error (PyError.nameError (str "instance")) := rfl
  rw [hres]

/-- C8 (code bug in the source): when the launch command exits with
    status zero but the PID-file re-check finds the process dead, the
    raise site formats a two-slot format string with a single argument,
    so a TypeError is raised instead of the documented LaunchFailure
    HypervisorError carrying the captured output. -/
theorem execute_silent_death_type_error (env : Env) (st : FsState)
    (inst : Instance) (kvm_runtime : List (List Char) × List NIC)
    (incoming : Option (List Char × List Char))
    (h1 : IsProcessAlive st (ReadPidFile st.pidfile) = false)
    (h2 : (env.runCmdResult (execFullCmd env st inst kvm_runtime incoming)).failed = false)
    (h3 : IsProcessAlive (execStateAfterRun env st inst kvm_runtime incoming)
        (ReadPidFile (execStateAfterRun env st inst kvm_runtime incoming).pidfile)
        = false) :
    (_ExecuteKVMRuntime env st inst kvm_runtime incoming).err =
      some (PyError.typeError (str "not enough arguments for format string")) := by
  have hn1 : ¬ IsProcessAlive st (ReadPidFile st.pidfile) = true := by simp [h1]
  have hn2 : ¬ (env.runCmdResult
      (execFullCmd env st inst kvm_runtime incoming)).failed = true := by simp [h2]
  simp only [_ExecuteKVMRuntime]
  rw [if_neg hn1, if_neg (by simpa using hn2), if_pos h3]
  simp [hvRaise_postlaunch]

/-! ## Concrete fixtures for the witnesses -/

/-- Benign oracle environment: every external command succeeds and
    changes nothing. -/
def envW : Env where
  runCmdResult := fun _ => ⟨false, [], [], [], []⟩
  runShellResult := fun _ => ⟨false, [], [], [], []⟩
  runEffect := fun s _ => s
  tmpName := fun _ => str "/tmp/tap0"
  killEffect := fun s _ => s
  powerdownEffect := fun s _ => (s, [])

/-- Oracle environment whose external commands all fail. -/
def envFailW : Env where
  runCmdResult := fun _ => ⟨true, str "so", str "se", str "out", str "exit code 1"⟩
  runShellResult := fun _ => ⟨true, str "so", str "se", str "out", str "exit code 1"⟩
  runEffect := fun s _ => s
  tmpName := fun _ => str "/tmp/tap0"
  killEffect := fun s _ => s
  powerdownEffect := fun s _ => (s, [])

/-- State of an absent instance: no PID file, leftover artifacts, no
    process alive. -/
def stAbsentW : FsState :=
  ⟨none, true, true, some [], [], 0, fun _ => false⟩

/-- State of a running instance: PID file holding 7, process 7 alive. -/
def stAliveW : FsState :=
  ⟨some 7, true, true, some [], [], 0, fun p => decide (p = 7)⟩

/-- Example instance description. -/
def instW : Instance :=
  ⟨str "inst1", str "128", str "1", true, str "/boot/vmlinuz", [], []⟩

/-- Witness for C2: a concrete stop that returns true leaves none of
    the four artifacts. -/
theorem stop_cleanup_invariant_witness :
    (StopInstance envW stAbsentW instW false).1 = true ∧
    ((StopInstance envW stAbsentW instW false).2.1.pidfile = none ∧
     (StopInstance envW stAbsentW instW false).2.1.monitorSock = false ∧
     (StopInstance envW stAbsentW instW false).2.1.serialSock = false ∧
     (StopInstance envW stAbsentW instW false).2.1.runtimeFile = none) :=
  ⟨rfl, stop_cleanup_invariant envW stAbsentW instW false rfl⟩

/-- Witness for C9 at a concrete absent instance. -/
theorem stop_absent_immediate_witness :
    IsProcessAlive stAbsentW (ReadPidFile stAbsentW.pidfile) = false ∧
    StopInstance envW stAbsentW instW false = (true, cleanupFiles stAbsentW, []) :=
  ⟨rfl, stop_absent_immediate envW stAbsentW instW false rfl⟩

/-- Witness for C4 at a concrete running instance. -/
theorem start_already_running_no_mutation_witness :
    IsProcessAlive stAliveW (ReadPidFile stAliveW.pidfile) = true ∧
    StartInstance envW stAliveW instW [] =
      ⟨some (PyError.hypervisorError
          (str "Failed to start instance " ++ instW.name ++ str ": already running")),
       stAliveW, []⟩ :=
  ⟨rfl, start_already_running_no_mutation envW stAliveW instW [] rfl⟩

/-- Witness for C7: a concrete failing relay raises NameError. -/
theorem call_monitor_failure_raises_name_error_witness :
    (envFailW.runShellResult (socatLine (str "inst1") (str "info migrate"))).failed
      = true ∧
    _CallMonitorCommand envFailW (str "inst1") (str "info migrate") =
      Except.error (PyError.nameError (str "instance")) :=
  ⟨rfl, call_monitor_failure_raises_name_error envFailW
    (str "inst1") (str "info migrate") rfl⟩

/-- Witness for C8: a concrete zero-exit launch whose process is dead
    afterwards raises TypeError. -/
theorem execute_silent_death_type_error_witness :
    IsProcessAlive stAbsentW (ReadPidFile stAbsentW.pidfile) = false ∧
    (envW.runCmdResult
        (execFullCmd envW stAbsentW instW ([], []) none)).failed = false ∧
    IsProcessAlive (execStateAfterRun envW stAbsentW instW ([], []) none)
        (ReadPidFile (execStateAfterRun envW stAbsentW instW ([], []) none).pidfile)
        = false ∧
    (_ExecuteKVMRuntime envW stAbsentW instW ([], []) none).err =
      some (PyError.typeError (str "not enough arguments for format string")) :=
  ⟨rfl, rfl, rfl,
    execute_silent_death_type_error envW stAbsentW instW ([], []) none rfl rfl rfl⟩

/-- C1: dispatch of the MigrateInstance status poll loop: a completed
    token ends the loop successfully at once; failed or cancelled on a
    non-live migration sends cont before the fatal error; an
    unparsable reply raises at once without retry; active and
    unrecognized tokens sleep 2 time units and retry on the remaining
    replies. -/
theorem migrate_poll_loop_dispatch (live : Bool) (reply : List Char)
    (rest : List (List Char)) :
    (migStatusSearch reply = some (str "completed") →
      pollLoop live (reply :: rest) =
        ([Event.monitorCmd infoMigrateCmd], PollOutcome.completed)) ∧
    (migStatusSearch reply = some (str "failed") → live = false →
      pollLoop live (reply :: rest) =
        ([Event.monitorCmd infoMigrateCmd, Event.monitorCmd (str "cont")],
         PollOutcome.fatal (PyError.hypervisorError
           (str "Migration failed at the kvm level")))) ∧
    (migStatusSearch reply = some (str "cancelled") → live = false →
      pollLoop live (reply :: rest) =
        ([Event.monitorCmd infoMigrateCmd, Event.monitorCmd (str "cont")],
         PollOutcome.fatal (PyError.hypervisorError
           (str "Migration cancelled at the kvm level")))) ∧
    (migStatusSearch reply = none →
      pollLoop live (reply :: rest) =
        ([Event.monitorCmd infoMigrateCmd],
         PollOutcome.fatal (PyError.hypervisorError
           (str "Unknown " ++ sq ++ str "info migrate" ++ sq ++ str " result: "
              ++ reply)))) ∧
    (∀ tok, migStatusSearch reply = some tok →
      (tok = str "active" ∨
        (tok ≠ str "completed" ∧ tok ≠ str "failed" ∧ tok ≠ str "cancelled")) →
      pollLoop live (reply :: rest) =
        (Event.monitorCmd infoMigrateCmd :: Event.slept 2 :: (pollLoop live rest).1,
         (pollLoop live rest).2)) := by
  refine ⟨?_, ?_, ?_, ?_, ?_⟩
  · intro h
    simp [pollLoop, h]
  · intro h hlive
    subst hlive
    have hmsg : hvRaise (str "Migration %s at the kvm level") [str "failed"] =
        PyError.hypervisorError (str "Migration failed at the kvm level") := by decide
    simp [pollLoop, h, hmsg]
    rw [if_neg (by decide), if_neg (by decide)]
  · intro h hlive
    subst hlive
    have hmsg : hvRaise (str "Migration %s at the kvm level") [str "cancelled"] =
        PyError.hypervisorError (str "Migration cancelled at the kvm level") := by
      decide
    simp [pollLoop, h, hmsg]
    rw [if_neg (by decide), if_neg (by decide)]
  · intro h
    simp only [pollLoop, h]
    have hfmt : unknownFmt =
        (str "Unknown " ++ sq ++ str "info migrate" ++ sq ++ str " result: ") ++
          '%' :: 's' :: [] := by decide
    rw [hfmt, hvRaise_one_shot _ [] reply (by decide) (by decide)]
    simp
  · intro tok h hcase
    simp only [pollLoop, h]
    rcases hcase with hta | ⟨hnc, hnf, hncl⟩
    · subst hta
      rw [if_neg (by decide), if_pos rfl]
    · by_cases hta : tok = str "active"
      · subst hta
        rw [if_neg (by decide), if_pos rfl]
      · rw [if_neg hnc, if_neg hta, if_neg (by rintro (hf | hc) <;> simp_all)]

/-- Witness for C1 at three concrete synthetic replies (completed,
    non-live failed, unparsable). -/
theorem migrate_poll_loop_dispatch_witness :
    migStatusSearch (str "Migration status: completed") = some (str "completed") ∧
    pollLoop true [str "Migration status: completed"] =
      ([Event.monitorCmd infoMigrateCmd], PollOutcome.completed) ∧
    migStatusSearch (str "Migration status: failed") = some (str "failed") ∧
    pollLoop false [str "Migration status: failed"] =
      ([Event.monitorCmd infoMigrateCmd, Event.monitorCmd (str "cont")],
       PollOutcome.fatal (PyError.hypervisorError
         (str "Migration failed at the kvm level"))) ∧
    migStatusSearch (str "garbage") = none ∧
    pollLoop true [str "garbage"] =
      ([Event.monitorCmd infoMigrateCmd],
       PollOutcome.fatal (PyError.hypervisorError
         (str "Unknown " ++ sq ++ str "info migrate" ++ sq ++ str " result: "
            ++ str "garbage"))) := by
  refine ⟨by decide, ?_, by decide, ?_, by decide, ?_⟩
  · exact (migrate_poll_loop_dispatch true (str "Migration status: completed") []).1
      (by decide)
  · exact (migrate_poll_loop_dispatch false
      (str "Migration status: failed") []).2.1 (by decide) rfl
  · exact (migrate_poll_loop_dispatch true (str "garbage") []).2.2.2.1 (by decide)

/-- C10: the status dispatch is case-sensitive although the pattern
    match is case-insensitive: a token equal to one of the recognized
    statuses only up to letter case is treated as unrecognized, so the
    loop sleeps 2 and retries instead of terminating or raising. -/
theorem migrate_status_case_sensitive (live : Bool) (reply : List Char)
    (rest : List (List Char)) (tok : List Char)
    (h1 : migStatusSearch reply = some tok)
    (h2 : tok.map lowerChar ∈
      [str "completed", str "failed", str "cancelled", str "active"])
    (h3 : tok ∉ [str "completed", str "failed", str "cancelled", str "active"]) :
    pollLoop live (reply :: rest) =
      (Event.monitorCmd infoMigrateCmd :: Event.slept 2 :: (pollLoop live rest).1,
       (pollLoop live rest).2) := by
  simp only [List.mem_cons, List.not_mem_nil, or_false, not_or] at h3
  obtain ⟨hnc, hnf, hncl, hna⟩ := h3
  simp only [pollLoop, h1]
  rw [if_neg hnc, if_neg hna, if_neg (by rintro (hf | hc) <;> simp_all)]

/-- Witness for C10: the capitalized reply matches the pattern, the
    capture differs from every recognized token only by case, and the
    loop sleeps and retries. -/
theorem migrate_status_case_sensitive_witness :
    migStatusSearch (str "MIGRATION STATUS: COMPLETED") = some (str "COMPLETED") ∧
    (str "COMPLETED").map lowerChar ∈
      [str "completed", str "failed", str "cancelled", str "active"] ∧
    (str "COMPLETED") ∉
      [str "completed", str "failed", str "cancelled", str "active"] ∧
    pollLoop true [str "MIGRATION STATUS: COMPLETED"] =
      (Event.monitorCmd infoMigrateCmd :: Event.slept 2 :: (pollLoop true []).1,
       (pollLoop true []).2) :=
  ⟨by decide, by decide, by decide,
    migrate_status_case_sensitive true (str "MIGRATION STATUS: COMPLETED") []
      (str "COMPLETED") (by decide) (by decide) (by decide)⟩

/-! ## Termination of the powerdown loop -/

theorem nextWait_ge_one (w : ℚ) (hw : 1 ≤ w) : 1 ≤ nextWait w := by
  unfold nextWait
  split
  · nlinarith
  · exact hw

/-- Event trace of k powerdown rounds starting from a given delay:
    each round a system_powerdown command, then a sleep of the current
    delay, the delay growing by nextWait. -/
def powerdownEvs (wait : ℚ) : Nat → List Event
  | 0 => []
  | k + 1 =>
      Event.monitorCmd (str "system_powerdown") :: Event.slept wait ::
        powerdownEvs (nextWait wait) k

theorem powerdownLoop_total (tdie deadline : ℚ) (fuel : Nat) :
    ∀ now wait : ℚ, 1 ≤ wait → Int.toNat ⌈deadline - now⌉ ≤ fuel →
      ∃ k t', powerdownLoop tdie deadline fuel now wait =
          some (powerdownEvs wait k, t') ∧ k ≤ fuel ∧
          (deadline ≤ t' ∨ tdie ≤ t') := by
  induction fuel with
  | zero =>
      intro now wait hw hf
      have hd : deadline ≤ now := by
        by_contra hq
        push_neg at hq
        have h1 : (0:ℤ) < ⌈deadline - now⌉ := Int.ceil_pos.mpr (by linarith)
        omega
      refine ⟨0, now, ?_, le_rfl, Or.inl hd⟩
      unfold powerdownLoop
      rw [if_neg (fun hq => absurd hq.1 (not_lt.mpr hd))]
      rfl
  | succ f ih =>
      intro now wait hw hf
      by_cases hcond : now < deadline ∧ now < tdie
      · have hc1 : (1:ℤ) ≤ ⌈deadline - now⌉ := Int.ceil_pos.mpr (by linarith [hcond.1])
        have hmono : ⌈deadline - (now + wait)⌉ ≤ ⌈deadline - now⌉ - 1 := by
          have hle : deadline - (now + wait) ≤ (deadline - now) - 1 := by linarith
          calc ⌈deadline - (now + wait)⌉ ≤ ⌈(deadline - now) - 1⌉ := Int.ceil_le_ceil hle
            _ = ⌈deadline - now⌉ - 1 := by
                rw [show ((1:ℚ) = ((1:ℤ):ℚ)) from by norm_num, Int.ceil_sub_int]
        have hfb : Int.toNat ⌈deadline - (now + wait)⌉ ≤ f := by omega
        obtain ⟨k, t', heq, hk, hexit⟩ :=
          ih (now + wait) (nextWait wait) (nextWait_ge_one wait hw) hfb
        refine ⟨k + 1, t', ?_, by omega, hexit⟩
        unfold powerdownLoop
        rw [if_pos hcond]
        simp only [heq]
        rfl
      · refine ⟨0, now, ?_, by omega, ?_⟩
        · unfold powerdownLoop
          rw [if_neg hcond]
          rfl
        · rcases not_and_or.mp hcond with hq | hq
          · exact Or.inl (not_lt.mp hq)
          · exact Or.inr (not_lt.mp hq)

/-- C6: the graceful powerdown retry loop terminates within the fixed
    timeout window: the ceiling of the timeout is fuel enough for the
    loop to reach its exit condition; it runs at most that many rounds,
    each round a system_powerdown command then a sleep, the delay
    starting at 1 and following the capped 1.3 growth of nextWait; at
    exit the clock has reached the deadline or the guest is dead. -/
theorem powerdown_retry_terminates (tdie now timeout : ℚ) :
    ∃ k t', _RetryInstancePowerdown tdie now timeout =
        some (powerdownEvs 1 k, t') ∧ k ≤ Int.toNat ⌈timeout⌉ ∧
        (now + timeout ≤ t' ∨ tdie ≤ t') := by
  have hb : Int.toNat ⌈now + timeout - now⌉ ≤ Int.toNat ⌈timeout⌉ := by
    rw [show now + timeout - now = timeout from by ring]
  exact powerdownLoop_total tdie (now + timeout) (Int.toNat ⌈timeout⌉) now 1 le_rfl hb

end HvKvm
